/-
Verification of the zero-shot-prompting notebook
(src/all_prompt_engineering_techniques/zero-shot-prompting.ipynb).

The notebook defines a two-line chain builder `create_chain` around a
LangChain `PromptTemplate` and a `ChatOpenAI` model, a sentiment loop, and a
`compare_prompts` helper.  The substantive logic is (a) f-string template
binding performed by the templating library and (b) one blocking model call
per invocation.  We embed the template grammar, the binder, the chain
objects, and the notebook cells, and prove or refute the frozen claims.
-/
import Mathlib

set_option autoImplicit false
set_option maxRecDepth 100000

namespace ZeroShot

/-- The opening brace character, written via its code point. -/
def lbrace : Char := Char.ofNat 123

/-- The closing brace character, written via its code point. -/
def rbrace : Char := Char.ofNat 125

/-- Modelled from the spec: the templating library used by `create_chain`
(LangChain `PromptTemplate`, f-string format) is not part of the repository
source.  Per the spec, a prompt template is a string with zero or more named
placeholders, and a malformed template is a failure condition.  Python
format-string parsing splits a template into literal runs and named fields
`\x7bname\x7d`, treats doubled braces as escaped literal braces, and rejects a lone
closing brace or an unterminated/nested field.  Conversion and format-spec
syntax (`!`, `:`) is not used by any template in the repository and is not
modelled. -/
inductive ParseErr where
  /-- A single closing brace in literal text. -/
  | singleRBrace : ParseErr
  /-- An unterminated field, or an opening brace inside a field name. -/
  | invalidField : ParseErr
deriving DecidableEq, Repr

/-- Faults the notebook can raise: template parse errors (ValueError),
a missing placeholder key (KeyError), attribute access on a value without
that attribute (AttributeError), and storing None into os.environ
(TypeError). -/
inductive Err where
  | parse (e : ParseErr) : Err
  | key (name : String) : Err
  | attr : Err
  | typeErr : Err
deriving DecidableEq, Repr

/-- A parsed template fragment: one literal character or one named field. -/
inductive Fragment where
  | lit (c : Char) : Fragment
  | field (name : String) : Fragment
deriving DecidableEq, Repr

/-- Decidable equality on `Except`, used to evaluate concrete runs. -/
instance exceptDecEq {ε α : Type} [DecidableEq ε] [DecidableEq α] :
    DecidableEq (Except ε α)
  | .error a, .error b =>
    if h : a = b then .isTrue (by rw [h]) else .isFalse (by simp [h])
  | .error _, .ok _ => .isFalse (by simp)
  | .ok _, .error _ => .isFalse (by simp)
  | .ok a, .ok b =>
    if h : a = b then .isTrue (by rw [h]) else .isFalse (by simp [h])

/-- First-match association-list lookup, the semantics of a Python dict
lookup on our assoc-list model of dicts. -/
def lookupKey (k : String) : List (String × String) → Option String
  | [] => none
  | (k', v) :: rest => if k' = k then some v else lookupKey k rest

/-- Modelled from the spec: the f-string template scanner of the templating
library.  `none` is literal mode; `some acc` is inside a field whose name
chars so far are `acc`.  Doubled braces are escapes producing literal
braces; a lone closing brace or an unterminated field is an error. -/
def parseAux : Option (List Char) → List Char → Except Err (List Fragment)
  | none, [] => .ok []
  | some _, [] => .error (.parse .invalidField)
  | none, c :: rest =>
    if c = lbrace then
      match rest with
      | [] => .error (.parse .invalidField)
      | c2 :: rest2 =>
        if c2 = lbrace then
          match parseAux none rest2 with
          | .error e => .error e
          | .ok fs => .ok (.lit lbrace :: fs)
        else if c2 = rbrace then
          match parseAux none rest2 with
          | .error e => .error e
          | .ok fs => .ok (.field (String.mk []) :: fs)
        else
          parseAux (some [c2]) rest2
    else if c = rbrace then
      match rest with
      | [] => .error (.parse .singleRBrace)
      | c2 :: rest2 =>
        if c2 = rbrace then
          match parseAux none rest2 with
          | .error e => .error e
          | .ok fs => .ok (.lit rbrace :: fs)
        else .error (.parse .singleRBrace)
    else
      match parseAux none rest with
      | .error e => .error e
      | .ok fs => .ok (.lit c :: fs)
  | some acc, c :: rest =>
    if c = rbrace then
      match parseAux none rest with
      | .error e => .error e
      | .ok fs => .ok (.field (String.mk acc) :: fs)
    else if c = lbrace then .error (.parse .invalidField)
    else parseAux (some (acc ++ [c])) rest

/-- Parse a template string into fragments. -/
def parseFrags (l : List Char) : Except Err (List Fragment) :=
  parseAux none l

/-- The named fields of a fragment list, in order of occurrence. -/
def varsOf : List Fragment → List String
  | [] => []
  | .lit _ :: rest => varsOf rest
  | .field n :: rest => n :: varsOf rest

/-- The placeholder names of a template string (empty when it is
malformed). -/
def templateVariables (t : String) : List String :=
  match parseFrags t.data with
  | .error _ => []
  | .ok fs => varsOf fs

/-- Modelled from the spec: substitution of caller-supplied values into
placeholders by exact-match key, as the format step of the templating
library performs it.  Fields are resolved left to right; the first missing
key raises a KeyError.  Substituted values are inserted verbatim and never
re-scanned. -/
def formatFrags (M : List (String × String)) : List Fragment → Except Err (List Char)
  | [] => .ok []
  | .lit c :: rest =>
    match formatFrags M rest with
    | .error e => .error e
    | .ok l => .ok (c :: l)
  | .field n :: rest =>
    match lookupKey n M with
    | none => .error (.key n)
    | some v =>
      match formatFrags M rest with
      | .error e => .error e
      | .ok l => .ok (v.data ++ l)

/-- Bind a template string with a value mapping: parse, then format. -/
def bindTemplate (t : String) (M : List (String × String)) : Except Err String :=
  match parseFrags t.data with
  | .error e => .error e
  | .ok fs =>
    match formatFrags M fs with
    | .error e => .error e
    | .ok l => .ok (String.mk l)

/-- The literal token a placeholder name denotes inside a template. -/
def placeholderToken (p : String) : String :=
  String.mk (lbrace :: p.data ++ [rbrace])

/-- Whether a fragment is a literal brace (produced only by escapes). -/
def fragIsBraceLit : Fragment → Bool
  | .lit c => c = lbrace || c = rbrace
  | .field _ => false

/-- The configuration a `ChatOpenAI` instance carries: its model name. -/
structure LLMConfig where
  model : String
deriving DecidableEq, Repr

/-- The module-level language model of the setup cell:
`llm = ChatOpenAI(model="gpt-4o-mini")`. -/
def llm : LLMConfig := { model := "gpt-4o-mini" }

/-- A `PromptTemplate`: the template string plus the placeholder names the
library extracted from it (`PromptTemplate.from_template`). -/
structure PromptTemplate where
  template : String
  input_variables : List String
deriving DecidableEq, Repr

/-- Modelled from the spec: `PromptTemplate.from_template` of the templating
library parses the template and records its placeholder names (a set, here
deduplicated); a malformed template raises. -/
def PromptTemplate.from_template (t : String) : Except Err PromptTemplate :=
  match parseFrags t.data with
  | .error e => .error e
  | .ok fs => .ok { template := t, input_variables := (varsOf fs).dedup }

/-- The chain `prompt | llm` returned by `create_chain`. -/
structure Chain where
  prompt : PromptTemplate
  llm : LLMConfig
deriving DecidableEq, Repr

/-- The function `create_chain(prompt_template)` of the setup cell:
build a `PromptTemplate` from the string and pipe it into the module-level
`llm`. -/
def create_chain (prompt_template : String) : Except Err Chain :=
  match PromptTemplate.from_template prompt_template with
  | .error e => .error e
  | .ok p => .ok { prompt := p, llm := llm }

/-- The opaque remote model: a function from the bound prompt text to the
reply text.  Its behavior is external and non-deterministic; theorems
quantify over it. -/
def Model : Type := String → String

/-- The message object a `ChatOpenAI` call returns, with the reply text in
its `content` field. -/
structure AIMessage where
  content : String
deriving DecidableEq, Repr

/-- A runtime value flowing out of a chain: LangChain runnables are
dynamically typed, so the output is either a plain string (as a string
output parser would produce) or a message object (as a chat model
produces). -/
inductive LCValue where
  | str (s : String) : LCValue
  | message (m : AIMessage) : LCValue
deriving DecidableEq, Repr

/-- Python attribute access `.content` on a chain output: succeeds on a
message object, raises AttributeError on a plain string. -/
def LCValue.contentAttr : LCValue → Except Err String
  | .message m => .ok m.content
  | .str _ => .error .attr

/-- Whether a chain output is a plain string. -/
def outputIsStr : Except Err LCValue → Bool
  | .ok (.str _) => true
  | _ => false

/-- Whether an `Except` value is a success. -/
def exceptIsOk {α : Type} : Except Err α → Bool
  | .ok _ => true
  | .error _ => false

/-- Invoking a chain `prompt | llm` on an input dict: format the stored
template with the inputs, then make one blocking model call; the output is
the message object of the model. -/
def Chain.invoke (model : Model) (c : Chain) (input : List (String × String)) :
    Except Err LCValue :=
  match bindTemplate c.prompt.template input with
  | .error e => .error e
  | .ok s => .ok (.message { content := model s })

/-- An observable event of a notebook run: one remote model call, or one
printed line. -/
inductive Event where
  | llmCall (prompt : String) (reply : String) : Event
  | printLine (line : String) : Event
deriving DecidableEq, Repr

/-- `Chain.invoke` instrumented with its event trace: a successful
invocation performs exactly one model call on the bound prompt; a binding
failure performs none. -/
def Chain.invokeTr (model : Model) (c : Chain) (input : List (String × String)) :
    Except Err LCValue × List Event :=
  match bindTemplate c.prompt.template input with
  | .error e => (.error e, [])
  | .ok s => (.ok (.message { content := model s }), [.llmCall s (model s)])

/-- The setup cell line `os.environ["OPENAI_API_KEY"] = os.getenv("OPENAI_API_KEY")`
over an environment modelled as an assoc list: when the variable is absent,
`os.getenv` returns None and storing None into `os.environ` raises
TypeError; otherwise the environment is updated. -/
def setupCell (env : List (String × String)) : Except Err (List (String × String)) :=
  match lookupKey "OPENAI_API_KEY" env with
  | none => .error .typeErr
  | some v => .ok (("OPENAI_API_KEY", v) :: env)

/-- The template `direct_task_prompt` of the direct-task cell. -/
def direct_task_prompt : String :=
  "Classify the sentiment of the following text as positive, negative, or neutral.\nDo not explain your reasoning, just provide the classification.\n\nText: {text}\n\nSentiment:"

/-- The chain `direct_task_chain = create_chain(direct_task_prompt)`. -/
def direct_task_chain : Chain :=
  { prompt := { template := direct_task_prompt, input_variables := ["text"] }
    llm := llm }

/-- The three example texts of the direct-task cell. -/
def texts : List String :=
  ["I absolutely loved the movie! The acting was superb.",
   "The weather today is quite typical for this time of year.",
   "I\x27m disappointed with the service I received at the restaurant."]

/-- The direct-task loop: for each text, invoke the chain on
`\x7b"text": text\x7d`, read `.content`, and print the text and the result. -/
def sentimentLoop (model : Model) (chain : Chain) :
    List String → Except Err Unit × List Event
  | [] => (.ok (), [])
  | t :: rest =>
    match chain.invokeTr model [("text", t)] with
    | (.error e, ev) => (.error e, ev)
    | (.ok v, ev) =>
      match v.contentAttr with
      | .error e => (.error e, ev)
      | .ok result =>
        let (res, evs) := sentimentLoop model chain rest
        (res, ev ++
          [.printLine ("Text: " ++ t), .printLine ("Sentiment: " ++ result)] ++ evs)

/-- The direct-task cell run over its three texts. -/
def sentimentRun (model : Model) : Except Err Unit × List Event :=
  sentimentLoop model direct_task_chain texts

/-- The separator `"\n" + "-"*50 + "\n"` printed by `compare_prompts`. -/
def sepLine : String :=
  "\n" ++ String.mk (List.replicate 50 '-') ++ "\n"

/-- The loop body of `compare_prompts`: for each named template, build a
chain with `create_chain`, invoke it on the single-key dict
`\x7b"task": task\x7d`, read `.content`, and print the name, the result, and a
separator.  An exception aborts the loop. -/
def comparePromptsLoop (model : Model) (tk : String) :
    List (String × String) → Except Err Unit × List Event
  | [] => (.ok (), [])
  | (name, template) :: rest =>
    match create_chain template with
    | .error e => (.error e, [])
    | .ok chain =>
      match chain.invokeTr model [("task", tk)] with
      | (.error e, ev) => (.error e, ev)
      | (.ok v, ev) =>
        match v.contentAttr with
        | .error e => (.error e, ev)
        | .ok result =>
          let (res, evs) := comparePromptsLoop model tk rest
          (res, ev ++
            [.printLine (name ++ " Prompt Result:"), .printLine result,
             .printLine sepLine] ++ evs)

/-- The function `compare_prompts(task, prompt_templates)`: print the task
header, then run the loop.  Its Python return value is None; only the
printed lines and model calls are observable. -/
def compare_prompts (model : Model) (tk : String)
    (prompt_templates : List (String × String)) : Except Err Unit × List Event :=
  let (res, evs) := comparePromptsLoop model tk prompt_templates
  (res, .printLine ("Task: " ++ tk ++ "\n") :: evs)

/-- The concrete task string of the comparative-analysis cell. -/
def task : String := "Explain concisely the concept of blockchain technology"

/-- The two named templates of the comparative-analysis cell. -/
def prompt_templates : List (String × String) :=
  [("Basic", "Explain {task}."),
   ("Structured", "Explain {task} by addressing the following points:\n1. Definition\n2. Key features\n3. Real-world applications\n4. Potential impact on industries")]

/-- The expected per-text events of the direct-task loop: one model call on
the bound prompt, then the two printed lines. -/
def sentimentEvents (model : Model) (t : String) : List Event :=
  match bindTemplate direct_task_prompt [("text", t)] with
  | .error _ => []
  | .ok s => [.llmCall s (model s),
              .printLine ("Text: " ++ t),
              .printLine ("Sentiment: " ++ model s)]

/-- Whether an event is a remote model call. -/
def isCall : Event → Bool
  | .llmCall _ _ => true
  | .printLine _ => false

/-- The expected per-template events of the `compare_prompts` loop: one
model call on the bound prompt, then the three printed lines. -/
def perTemplateEvents (model : Model) (tk : String) (nt : String × String) :
    List Event :=
  match bindTemplate nt.2 [("task", tk)] with
  | .error _ => []
  | .ok s => [.llmCall s (model s),
              .printLine (nt.1 ++ " Prompt Result:"),
              .printLine (model s),
              .printLine sepLine]

/-! ### General lemmas about lookup, parsing and formatting -/

theorem lookupKey_mem {k v : String} {M : List (String × String)}
    (h : lookupKey k M = some v) : (k, v) ∈ M := by
  induction M with
  | nil => simp [lookupKey] at h
  | cons kv rest ih =>
    obtain ⟨k', v'⟩ := kv
    by_cases hk : k' = k
    · subst hk
      simp [lookupKey] at h
      simp [h]
    · simp [lookupKey, hk] at h
      exact List.mem_cons_of_mem _ (ih h)

theorem varsOf_field {p : String} {fs : List Fragment} :
    p ∈ varsOf fs ↔ Fragment.field p ∈ fs := by
  induction fs with
  | nil => simp [varsOf]
  | cons f rest ih =>
    cases f with
    | lit c => simp [varsOf, ih]
    | field n => simp [varsOf, ih, List.mem_cons]

theorem formatFrags_ok_of_covered {M : List (String × String)}
    {fs : List Fragment}
    (h : ∀ n ∈ varsOf fs, (lookupKey n M).isSome = true) :
    ∃ l, formatFrags M fs = .ok l := by
  induction fs with
  | nil => exact ⟨[], rfl⟩
  | cons f rest ih =>
    cases f with
    | lit c =>
      obtain ⟨l, hl⟩ := ih (fun n hn => h n (by simpa [varsOf] using hn))
      exact ⟨c :: l, by simp [formatFrags, hl]⟩
    | field n =>
      have hn : (lookupKey n M).isSome = true := h n (by simp [varsOf])
      obtain ⟨v, hv⟩ := Option.isSome_iff_exists.mp hn
      obtain ⟨l, hl⟩ := ih (fun m hm => h m (by simp [varsOf, hm]))
      exact ⟨v.data ++ l, by simp [formatFrags, hv, hl]⟩

theorem formatFrags_braceFree {M : List (String × String)}
    {fs : List Fragment} {l : List Char}
    (hfmt : formatFrags M fs = .ok l)
    (hlit : ∀ f ∈ fs, fragIsBraceLit f = false)
    (hval : ∀ kv ∈ M, ∀ c ∈ (kv.2 : String).data, c ≠ lbrace ∧ c ≠ rbrace) :
    ∀ c ∈ l, c ≠ lbrace ∧ c ≠ rbrace := by
  induction fs generalizing l with
  | nil =>
    simp [formatFrags] at hfmt
    subst hfmt
    simp
  | cons f rest ih =>
    cases f with
    | lit c =>
      have hc : ¬(c = lbrace ∨ c = rbrace) := by
        have := hlit (.lit c) (by simp)
        simpa [fragIsBraceLit] using this
      rw [formatFrags] at hfmt
      cases hrest : formatFrags M rest with
      | error e => rw [hrest] at hfmt; exact absurd hfmt (by simp)
      | ok l' =>
        rw [hrest] at hfmt
        have hl : l = c :: l' := by simpa using hfmt.symm
        subst hl
        intro d hd
        rcases List.mem_cons.mp hd with hdc | hdl
        · subst hdc; exact ⟨fun h => hc (Or.inl h), fun h => hc (Or.inr h)⟩
        · exact ih hrest (fun g hg => hlit g (by simp [hg])) d hdl
    | field n =>
      rw [formatFrags] at hfmt
      cases hlook : lookupKey n M with
      | none => rw [hlook] at hfmt; exact absurd hfmt (by simp)
      | some v =>
        rw [hlook] at hfmt
        cases hrest : formatFrags M rest with
        | error e => rw [hrest] at hfmt; exact absurd hfmt (by simp)
        | ok l' =>
          rw [hrest] at hfmt
          have hl : l = v.data ++ l' := by simpa using hfmt.symm
          subst hl
          intro d hd
          rcases List.mem_append.mp hd with hdv | hdl
          · exact hval (n, v) (lookupKey_mem hlook) d hdv
          · exact ih hrest (fun g hg => hlit g (by simp [hg])) d hdl

theorem formatFrags_error_of_missing {M : List (String × String)}
    {fs : List Fragment} {p : String}
    (hp : Fragment.field p ∈ fs) (hm : lookupKey p M = none) :
    ∃ q, formatFrags M fs = .error (.key q) ∧ lookupKey q M = none := by
  induction fs with
  | nil => simp at hp
  | cons f rest ih =>
    cases f with
    | lit c =>
      have hp' : Fragment.field p ∈ rest := by simpa using hp
      obtain ⟨q, hq, hqn⟩ := ih hp'
      exact ⟨q, by simp [formatFrags, hq], hqn⟩
    | field n =>
      cases hlook : lookupKey n M with
      | none => exact ⟨n, by simp [formatFrags, hlook], hlook⟩
      | some v =>
        have hp' : Fragment.field p ∈ rest := by
          rcases List.mem_cons.mp hp with heq | hmem
          · exact absurd hlook (by
              have : p = n := by injection heq
              rw [← this, hm]; simp)
          · exact hmem
        obtain ⟨q, hq, hqn⟩ := ih hp'
        exact ⟨q, by simp [formatFrags, hlook, hq], hqn⟩

theorem parseFrags_braceFree {l : List Char}
    (h : ∀ c ∈ l, c ≠ lbrace ∧ c ≠ rbrace) :
    parseFrags l = .ok (l.map .lit) := by
  induction l with
  | nil => rfl
  | cons c rest ih =>
    have hc := h c (by simp)
    show parseAux none (c :: rest) = .ok ((c :: rest).map .lit)
    have hrest : parseAux none rest = .ok (rest.map .lit) :=
      ih (fun d hd => h d (by simp [hd]))
    rw [parseAux.eq_def]
    simp [hc.1, hc.2, hrest]

theorem formatFrags_lits {M : List (String × String)} {l : List Char} :
    formatFrags M (l.map .lit) = .ok l := by
  induction l with
  | nil => rfl
  | cons c rest ih => simp [formatFrags, ih]

theorem noToken_of_braceFree {s : String}
    (h : ∀ c ∈ s.data, c ≠ lbrace ∧ c ≠ rbrace) (p : String) :
    ¬ (placeholderToken p).data <:+: s.data := by
  intro hinf
  have hmem : lbrace ∈ s.data := by
    refine hinf.subset ?_
    show lbrace ∈ (String.mk (lbrace :: p.data ++ [rbrace])).data
    simp [String.mk]
  exact (h lbrace hmem).1 rfl

theorem create_chain_shape {T : String} {c : Chain}
    (h : create_chain T = .ok c) :
    c.prompt.template = T ∧ c.llm = llm := by
  rw [create_chain, PromptTemplate.from_template] at h
  cases hp : parseFrags T.data with
  | error e => rw [hp] at h; exact absurd h (by simp)
  | ok fs =>
    rw [hp] at h
    have : c = { prompt := { template := T, input_variables := (varsOf fs).dedup }
                 llm := llm } := by simpa using h.symm
    rw [this]
    exact ⟨rfl, rfl⟩

theorem bindTemplate_ok_of_parse {T s : String} {M : List (String × String)}
    {fs : List Fragment} {l : List Char}
    (hp : parseFrags T.data = .ok fs)
    (hf : formatFrags M fs = .ok l)
    (hs : s = String.mk l) :
    bindTemplate T M = .ok s := by
  simp [bindTemplate, hp, hf, hs]

theorem bindTemplate_ok_elim {T s : String} {M : List (String × String)}
    (h : bindTemplate T M = .ok s) :
    ∃ fs l, parseFrags T.data = .ok fs ∧ formatFrags M fs = .ok l ∧
      s = String.mk l := by
  cases hp : parseFrags T.data with
  | error e =>
    have he : bindTemplate T M = .error e := by simp [bindTemplate, hp]
    rw [he] at h
    exact absurd h (by simp)
  | ok fs =>
    cases hf : formatFrags M fs with
    | error e =>
      have he : bindTemplate T M = .error e := by simp [bindTemplate, hp, hf]
      rw [he] at h
      exact absurd h (by simp)
    | ok l =>
      have he : bindTemplate T M = .ok (String.mk l) := by
        simp [bindTemplate, hp, hf]
      rw [he] at h
      exact ⟨fs, l, rfl, hf, by simpa using h.symm⟩

theorem exceptIsOk_elim {α : Type} {x : Except Err α}
    (h : exceptIsOk x = true) : ∃ a, x = .ok a := by
  cases x with
  | ok a => exact ⟨a, rfl⟩
  | error e => simp [exceptIsOk] at h

theorem comparePromptsLoop_ok {model : Model} {tk : String}
    {templates : List (String × String)}
    (h : ∀ nt ∈ templates,
      exceptIsOk (bindTemplate nt.2 [("task", tk)]) = true) :
    comparePromptsLoop model tk templates =
      (.ok (), templates.flatMap (perTemplateEvents model tk)) := by
  induction templates with
  | nil => rfl
  | cons nt rest ih =>
    obtain ⟨name, template⟩ := nt
    obtain ⟨s, hs⟩ := exceptIsOk_elim (h (name, template) (by simp))
    obtain ⟨fs, l, hfs, hfl, hsl⟩ := bindTemplate_ok_elim hs
    have hcc : create_chain template =
        .ok { prompt := { template := template
                          input_variables := (varsOf fs).dedup }
              llm := llm } := by
      simp [create_chain, PromptTemplate.from_template, hfs]
    have hrest := ih (fun nt h' => h nt (by simp [h']))
    simp [comparePromptsLoop, hcc, Chain.invokeTr, hs, LCValue.contentAttr,
      hrest, perTemplateEvents]

theorem comparePromptsLoop_error {model : Model} {tk : String}
    {templates : List (String × String)}
    (hparse : ∀ nt ∈ templates,
      exceptIsOk (parseFrags (nt.2 : String).data) = true)
    (hbad : ∃ nt ∈ templates, ∃ p ∈ templateVariables nt.2, p ≠ "task") :
    ∃ q, (comparePromptsLoop model tk templates).1 = .error (.key q) ∧
      q ≠ "task" := by
  induction templates with
  | nil => simp at hbad
  | cons nt rest ih =>
    obtain ⟨name, template⟩ := nt
    obtain ⟨fs, hfs⟩ := exceptIsOk_elim (hparse (name, template) (by simp))
    have hcc : create_chain template =
        .ok { prompt := { template := template
                          input_variables := (varsOf fs).dedup }
              llm := llm } := by
      simp [create_chain, PromptTemplate.from_template, hfs]
    have hvars : templateVariables template = varsOf fs := by
      simp [templateVariables, hfs]
    by_cases hhead : ∃ p ∈ varsOf fs, p ≠ "task"
    · obtain ⟨p, hpmem, hpne⟩ := hhead
      have hmiss : lookupKey p [("task", tk)] = none := by
        have : ¬ ("task" = p) := fun he => hpne he.symm
        simp [lookupKey, this]
      obtain ⟨q, hq, hqn⟩ :=
        formatFrags_error_of_missing (varsOf_field.mp hpmem) hmiss
      have hbind : bindTemplate template [("task", tk)] = .error (.key q) := by
        simp [bindTemplate, hfs, hq]
      have hqt : q ≠ "task" := by
        intro he
        rw [he] at hqn
        simp [lookupKey] at hqn
      refine ⟨q, ?_, hqt⟩
      simp [comparePromptsLoop, hcc, Chain.invokeTr, hbind]
    · push_neg at hhead
      have hcov : ∀ n ∈ varsOf fs, (lookupKey n [("task", tk)]).isSome = true := by
        intro n hn
        rw [hhead n hn]
        simp [lookupKey]
      obtain ⟨l, hl⟩ := formatFrags_ok_of_covered hcov
      have hbind : bindTemplate template [("task", tk)] = .ok (String.mk l) :=
        bindTemplate_ok_of_parse hfs hl rfl
      have hbadrest : ∃ nt ∈ rest, ∃ p ∈ templateVariables nt.2, p ≠ "task" := by
        obtain ⟨nt', hnt', p, hp, hpne⟩ := hbad
        rcases List.mem_cons.mp hnt' with he | hm
        · exfalso
          rw [he] at hp
          rw [hvars] at hp
          exact hpne (hhead p hp)
        · exact ⟨nt', hm, p, hp, hpne⟩
      obtain ⟨q, hq, hqt⟩ := ih (fun nt h' => hparse nt (by simp [h'])) hbadrest
      rcases hsplit : comparePromptsLoop model tk rest with ⟨r, evs⟩
      rw [hsplit] at hq
      refine ⟨q, ?_, hqt⟩
      simp [comparePromptsLoop, hcc, Chain.invokeTr, hbind, LCValue.contentAttr,
        hsplit]
      exact hq

/-! ### The claims -/

/-- C1, counterexample.  The claim says: for every template T and mapping M
covering all placeholders of T, binding yields a string with no remaining
placeholder token of T.  This fails when a substituted value itself
contains such a token: binding the template with sole placeholder `a` with
the mapping sending `a` to the literal text `\x7ba\x7d` succeeds and returns a
string that still contains the placeholder token `\x7ba\x7d`, because values
are inserted verbatim and never re-scanned. -/
theorem C1_counterexample :
    templateVariables "{a}" = ["a"] ∧
    lookupKey "a" [("a", "{a}")] = some "{a}" ∧
    bindTemplate "{a}" [("a", "{a}")] = .ok "{a}" ∧
    (placeholderToken "a").data <:+: ("{a}" : String).data :=
  ⟨by decide, by decide, by decide, [], [], by decide⟩

/-- C1, amended: for every template T that parses with no escaped literal
braces, and every mapping M that covers all placeholders of T with values
containing no brace characters, binding succeeds and the bound string
contains no remaining placeholder token at all. -/
theorem C1_no_remaining_placeholders (T : String) (M : List (String × String))
    (fs : List Fragment)
    (hp : parseFrags T.data = .ok fs)
    (hlit : ∀ f ∈ fs, fragIsBraceLit f = false)
    (hcov : ∀ p ∈ varsOf fs, (lookupKey p M).isSome = true)
    (hval : ∀ kv ∈ M, ∀ c ∈ (kv.2 : String).data, c ≠ lbrace ∧ c ≠ rbrace) :
    ∃ s, bindTemplate T M = .ok s ∧
      ∀ p, ¬ (placeholderToken p).data <:+: s.data := by
  obtain ⟨l, hl⟩ := formatFrags_ok_of_covered hcov
  have hbf : ∀ c ∈ l, c ≠ lbrace ∧ c ≠ rbrace :=
    formatFrags_braceFree hl hlit hval
  exact ⟨String.mk l, bindTemplate_ok_of_parse hp hl rfl,
    noToken_of_braceFree hbf⟩

/-- C1, witness: the amended theorem applied to the template
`Hello \x7ba\x7d!` and the mapping sending `a` to `world`. -/
theorem C1_witness :
    parseFrags ("Hello {a}!" : String).data =
      .ok [.lit 'H', .lit 'e', .lit 'l', .lit 'l', .lit 'o', .lit ' ',
           .field "a", .lit '!'] ∧
    (∃ s, bindTemplate "Hello {a}!" [("a", "world")] = .ok s ∧
      ∀ p, ¬ (placeholderToken p).data <:+: s.data) :=
  ⟨by decide,
   C1_no_remaining_placeholders "Hello {a}!" [("a", "world")]
     [.lit 'H', .lit 'e', .lit 'l', .lit 'l', .lit 'o', .lit ' ',
      .field "a", .lit '!']
     (by decide) (by decide) (by decide) (by decide)⟩

/-- C2: for every well-formed template whose chain `create_chain` builds,
and every input mapping missing one of its placeholders, invoking the chain
raises a KeyError for some missing key instead of producing a bound
string. -/
theorem C2_missing_key_raises (model : Model) (T p : String)
    (M : List (String × String)) (c : Chain)
    (hc : create_chain T = .ok c)
    (hp : p ∈ templateVariables T)
    (hm : lookupKey p M = none) :
    ∃ q, Chain.invoke model c M = .error (.key q) ∧ lookupKey q M = none := by
  have hshape := create_chain_shape hc
  cases hp2 : parseFrags T.data with
  | error e =>
    exfalso
    have he : create_chain T = .error e := by
      simp [create_chain, PromptTemplate.from_template, hp2]
    rw [he] at hc
    exact absurd hc (by simp)
  | ok fs =>
    have hvars : p ∈ varsOf fs := by
      simpa [templateVariables, hp2] using hp
    obtain ⟨q, hq, hqn⟩ := formatFrags_error_of_missing (varsOf_field.mp hvars) hm
    refine ⟨q, ?_, hqn⟩
    simp [Chain.invoke, hshape.1, bindTemplate, hp2, hq]

/-- C2, witness: invoking the chain of the template `\x7ba\x7d` on the empty
mapping raises a KeyError. -/
theorem C2_witness :
    create_chain "{a}" =
      .ok { prompt := { template := "{a}", input_variables := ["a"] }
            llm := llm } ∧
    "a" ∈ templateVariables "{a}" ∧
    (∃ q, Chain.invoke (fun _ => "reply")
        { prompt := { template := "{a}", input_variables := ["a"] }
          llm := llm } [] = .error (.key q) ∧ lookupKey q [] = none) :=
  ⟨by decide, by decide,
   C2_missing_key_raises (fun _ => "reply") "{a}" "a" []
     { prompt := { template := "{a}", input_variables := ["a"] }
       llm := llm }
     (by decide) (by decide) (by decide)⟩

/-- C3, counterexample.  The claim says the value returned by invoking a
chain is the raw reply text as a plain string.  In the code the chain is
`prompt | llm` with no output parser, so invoking it returns a message
object from which the text must be extracted via `.content`: on a concrete
input the output is a message wrapper, not a plain string. -/
theorem C3_counterexample :
    Chain.invoke (fun _ => "Positive")
      { prompt := { template := "{text}", input_variables := ["text"] }
        llm := llm } [("text", "hi")] =
      .ok (.message { content := "Positive" }) ∧
    outputIsStr (Chain.invoke (fun _ => "Positive")
      { prompt := { template := "{text}", input_variables := ["text"] }
        llm := llm } [("text", "hi")]) = false ∧
    LCValue.contentAttr (.message { content := "Positive" }) =
      .ok "Positive" :=
  ⟨by decide, by decide, by decide⟩

/-- C3, amended: invoking the chain returns a message object wrapping the
raw text of the model reply; the raw text is obtained by reading its
`content` attribute, which is what every call site in the notebook does. -/
theorem C3_message_wraps_raw_text (model : Model) (T s : String)
    (M : List (String × String)) (c : Chain)
    (hc : create_chain T = .ok c)
    (hb : bindTemplate T M = .ok s) :
    Chain.invoke model c M = .ok (.message { content := model s }) ∧
    LCValue.contentAttr (.message { content := model s }) = .ok (model s) := by
  have hshape := create_chain_shape hc
  exact ⟨by simp [Chain.invoke, hshape.1, hb], rfl⟩

/-- C3, witness: the amended theorem applied to the template `\x7btext\x7d`
bound with `hi` under a model that replies `Neutral`. -/
theorem C3_witness :
    create_chain "{text}" =
      .ok { prompt := { template := "{text}", input_variables := ["text"] }
            llm := llm } ∧
    bindTemplate "{text}" [("text", "hi")] = .ok "hi" ∧
    (Chain.invoke (fun _ => "Neutral")
        { prompt := { template := "{text}", input_variables := ["text"] }
          llm := llm } [("text", "hi")] =
      .ok (.message { content := "Neutral" }) ∧
     LCValue.contentAttr (.message { content := "Neutral" }) =
       .ok "Neutral") :=
  ⟨by decide, by decide,
   C3_message_wraps_raw_text (fun _ => "Neutral") "{text}" "hi"
     [("text", "hi")]
     { prompt := { template := "{text}", input_variables := ["text"] }
       llm := llm }
     (by decide) (by decide)⟩

/-- C4, counterexample.  The claim says re-binding the already-bound string
with the same mapping leaves it unchanged.  With the template whose sole
placeholder is `a` and the mapping sending `a` to `\x7ba\x7dx`, the first
binding yields `\x7ba\x7dx` and re-binding that string with the same mapping
yields `\x7ba\x7dxx`, which differs. -/
theorem C4_counterexample :
    bindTemplate "{a}" [("a", "{a}x")] = .ok "{a}x" ∧
    bindTemplate "{a}x" [("a", "{a}x")] = .ok "{a}xx" ∧
    ("{a}xx" : String) ≠ "{a}x" :=
  ⟨by decide, by decide, by decide⟩

/-- C4, amended: binding is a pure function of T and M (hence deterministic),
and it is idempotent whenever the template parses with no escaped literal
braces and the covering mapping has brace-free values: the bound string
then re-binds to itself. -/
theorem C4_binding_idempotent (T : String) (M : List (String × String))
    (fs : List Fragment)
    (hp : parseFrags T.data = .ok fs)
    (hlit : ∀ f ∈ fs, fragIsBraceLit f = false)
    (hcov : ∀ p ∈ varsOf fs, (lookupKey p M).isSome = true)
    (hval : ∀ kv ∈ M, ∀ c ∈ (kv.2 : String).data, c ≠ lbrace ∧ c ≠ rbrace) :
    ∃ s, bindTemplate T M = .ok s ∧ bindTemplate s M = .ok s := by
  obtain ⟨l, hl⟩ := formatFrags_ok_of_covered hcov
  have hbf : ∀ c ∈ l, c ≠ lbrace ∧ c ≠ rbrace :=
    formatFrags_braceFree hl hlit hval
  refine ⟨String.mk l, bindTemplate_ok_of_parse hp hl rfl, ?_⟩
  exact bindTemplate_ok_of_parse (parseFrags_braceFree hbf) formatFrags_lits rfl

/-- C4, witness: the amended theorem applied to the template `Hi \x7bb\x7d`
and the mapping sending `b` to `there`. -/
theorem C4_witness :
    parseFrags ("Hi {b}" : String).data =
      .ok [.lit 'H', .lit 'i', .lit ' ', .field "b"] ∧
    (∃ s, bindTemplate "Hi {b}" [("b", "there")] = .ok s ∧
      bindTemplate s [("b", "there")] = .ok s) :=
  ⟨by decide,
   C4_binding_idempotent "Hi {b}" [("b", "there")]
     [.lit 'H', .lit 'i', .lit ' ', .field "b"]
     (by decide) (by decide) (by decide) (by decide)⟩

/-- C5, counterexample.  The claim says that for every task and every
dictionary, `compare_prompts` builds a chain for each named template,
invokes it exactly once, and prints the result.  With a dictionary whose
first template uses a placeholder other than `task`, the first invocation
raises a KeyError, no model call and no result print happens, and the
second template is never processed at all. -/
theorem C5_counterexample :
    compare_prompts (fun _ => "r") "t" [("Bad", "{x}"), ("Good", "{task}")] =
      (.error (.key "x"), [.printLine "Task: t\n"]) ∧
    ([("Bad", "{x}"), ("Good", "{task}")] : List (String × String)).length = 2 ∧
    ((compare_prompts (fun _ => "r") "t"
        [("Bad", "{x}"), ("Good", "{task}")]).2.filter isCall).length = 0 :=
  ⟨by decide, by decide, by decide⟩

/-- C5, amended: for every task string and every dictionary whose templates
all bind successfully against the single-key mapping `task`,
`compare_prompts` is a loop that, per named template in order, builds a
chain via `create_chain`, makes exactly one model call, and prints the
result; the event trace is the task header followed by one
call-print-print-print block per template. -/
theorem C5_loop_per_template (model : Model) (tk : String)
    (templates : List (String × String))
    (h : ∀ nt ∈ templates,
      exceptIsOk (bindTemplate nt.2 [("task", tk)]) = true) :
    compare_prompts model tk templates =
      (.ok (), .printLine ("Task: " ++ tk ++ "\n") ::
        templates.flatMap (perTemplateEvents model tk)) := by
  simp [compare_prompts, @comparePromptsLoop_ok model tk templates h]

/-- C5, witness: the amended theorem applied to the concrete two-template
dictionary of the notebook; the trace contains exactly two model calls. -/
theorem C5_witness :
    (∀ nt ∈ prompt_templates,
      exceptIsOk (bindTemplate nt.2 [("task", task)]) = true) ∧
    compare_prompts (fun _ => "reply") task prompt_templates =
      (.ok (), .printLine ("Task: " ++ task ++ "\n") ::
        prompt_templates.flatMap (perTemplateEvents (fun _ => "reply") task)) ∧
    ((compare_prompts (fun _ => "reply") task prompt_templates).2.filter
      isCall).length = 2 :=
  ⟨by decide,
   C5_loop_per_template (fun _ => "reply") task prompt_templates (by decide),
   by decide⟩

/-- C6: when the environment has no OPENAI_API_KEY entry, `os.getenv`
returns None and the setup line `os.environ["OPENAI_API_KEY"] = ...`
raises an unhandled TypeError, terminating the cell. -/
theorem C6_missing_credential_faults (env : List (String × String))
    (h : lookupKey "OPENAI_API_KEY" env = none) :
    setupCell env = .error .typeErr := by
  simp [setupCell, h]

/-- C6, witness: an environment holding only HOME has no credential, and
the setup cell faults on it. -/
theorem C6_witness :
    lookupKey "OPENAI_API_KEY" [("HOME", "/root")] = none ∧
    setupCell [("HOME", "/root")] = .error .typeErr :=
  ⟨by decide, C6_missing_credential_faults [("HOME", "/root")] (by decide)⟩

/-- C7: `create_chain` validates nothing beyond placeholder parsing: it
succeeds exactly when the template parses, and on success the chain stores
the template string verbatim, piped into the module-level llm. -/
theorem C7_no_template_validation (T : String) :
    exceptIsOk (create_chain T) = exceptIsOk (parseFrags T.data) ∧
    (∀ c, create_chain T = .ok c → c.prompt.template = T ∧ c.llm = llm) := by
  constructor
  · cases hp : parseFrags T.data with
    | error e => simp [create_chain, PromptTemplate.from_template, hp, exceptIsOk]
    | ok fs => simp [create_chain, PromptTemplate.from_template, hp, exceptIsOk]
  · intro c hc
    exact create_chain_shape hc

/-- C7, witness: the chain of `Explain \x7btask\x7d.` stores that very string
untransformed. -/
theorem C7_witness :
    create_chain "Explain {task}." =
      .ok { prompt := { template := "Explain {task}."
                        input_variables := ["task"] }
            llm := llm } ∧
    ({ prompt := { template := "Explain {task}."
                   input_variables := ["task"] }
       llm := llm } : Chain).prompt.template = "Explain {task}." :=
  ⟨by decide,
   ((C7_no_template_validation "Explain {task}.").2
     { prompt := { template := "Explain {task}."
                   input_variables := ["task"] }
       llm := llm } (by decide)).1⟩

/-- C8: both example loops are strictly sequential: for any model, the
event trace of the sentiment loop is, per text in iteration order, one
blocking model call whose full reply appears in the following prints before
the next call; likewise the trace of the notebook `compare_prompts` run is
the header followed, per template in order, by one call and its prints. -/
theorem C8_sequential_traces (model : Model) :
    sentimentRun model = (.ok (), texts.flatMap (sentimentEvents model)) ∧
    compare_prompts model task prompt_templates =
      (.ok (), .printLine ("Task: " ++ task ++ "\n") ::
        prompt_templates.flatMap (perTemplateEvents model task)) :=
  ⟨rfl, rfl⟩

/-- C9: `create_chain` is purely constructive: it makes no model call (its
result is a chain value, a function of the template string alone), every
chain it returns shares the module-level llm instance with model name
gpt-4o-mini, and a model call event arises only from invoking a chain, on
its bound prompt. -/
theorem C9_constructive_shared_llm :
    llm.model = "gpt-4o-mini" ∧
    (∀ T c, create_chain T = .ok c → c.llm = llm) ∧
    (∀ model c input s r,
      Event.llmCall s r ∈ (Chain.invokeTr model c input).2 →
      bindTemplate c.prompt.template input = .ok s ∧ r = model s) := by
  refine ⟨rfl, ?_, ?_⟩
  · intro T c hc
    exact (create_chain_shape hc).2
  · intro model c input s r hmem
    cases hb : bindTemplate c.prompt.template input with
    | error e =>
      have h2 : (Chain.invokeTr model c input).2 = [] := by
        simp [Chain.invokeTr, hb]
      rw [h2] at hmem
      simp at hmem
    | ok s' =>
      have h2 : (Chain.invokeTr model c input).2 = [.llmCall s' (model s')] := by
        simp [Chain.invokeTr, hb]
      rw [h2, List.mem_singleton] at hmem
      injection hmem with hs hr
      subst hs
      exact ⟨rfl, hr⟩

/-- C9, witness: the chain of `\x7btext\x7d` carries the shared llm, and its
invocation calls the model exactly on the bound prompt. -/
theorem C9_witness :
    create_chain "{text}" =
      .ok { prompt := { template := "{text}", input_variables := ["text"] }
            llm := llm } ∧
    ({ prompt := { template := "{text}", input_variables := ["text"] }
       llm := llm } : Chain).llm = llm ∧
    (Event.llmCall "hi" "ok" ∈
      (Chain.invokeTr (fun _ => "ok")
        { prompt := { template := "{text}", input_variables := ["text"] }
          llm := llm } [("text", "hi")]).2) ∧
    (bindTemplate ({ prompt := { template := "{text}"
                                 input_variables := ["text"] }
                     llm := llm } : Chain).prompt.template
        [("text", "hi")] = .ok "hi" ∧ "ok" = "ok") :=
  ⟨by decide,
   C9_constructive_shared_llm.2.1 "{text}"
     { prompt := { template := "{text}", input_variables := ["text"] }
       llm := llm } (by decide),
   by decide,
   C9_constructive_shared_llm.2.2 (fun _ => "ok")
     { prompt := { template := "{text}", input_variables := ["text"] }
       llm := llm } [("text", "hi")] "hi" "ok" (by decide)⟩

/-- C10: `compare_prompts` binds every template with exactly the single-key
mapping sending `task` to the task string, so if any template of the
dictionary (all parsing) uses a placeholder other than `task`, the run
aborts partway with a KeyError for a key other than `task`; the function
returns no result value, only the printed lines. -/
theorem C10_nontask_placeholder_fails (model : Model) (tk : String)
    (templates : List (String × String))
    (hparse : ∀ nt ∈ templates,
      exceptIsOk (parseFrags (nt.2 : String).data) = true)
    (hbad : ∃ nt ∈ templates, ∃ p ∈ templateVariables nt.2, p ≠ "task") :
    ∃ q, (compare_prompts model tk templates).1 = .error (.key q) ∧
      q ≠ "task" := by
  obtain ⟨q, hq, hqt⟩ :=
    @comparePromptsLoop_error model tk templates hparse hbad
  refine ⟨q, ?_, hqt⟩
  rcases hsplit : comparePromptsLoop model tk templates with ⟨r, evs⟩
  rw [hsplit] at hq
  simp [compare_prompts, hsplit]
  exact hq

/-- C10, witness: a one-template dictionary using the placeholder `x`
makes the run abort with a KeyError for a key other than `task`. -/
theorem C10_witness :
    (∃ p ∈ templateVariables "{x}", p ≠ "task") ∧
    (∃ q, (compare_prompts (fun _ => "r") "t" [("Bad", "{x}")]).1 =
        .error (.key q) ∧ q ≠ "task") :=
  ⟨by decide,
   C10_nontask_placeholder_fails (fun _ => "r") "t" [("Bad", "{x}")]
     (by decide) (by decide)⟩

end ZeroShot
